import Mathlib

set_option maxHeartbeats 1000000

namespace Orchester

/-! Shallow embedding of the orchester-lycosidae container-lifecycle service:
`app/utils.py` (`sanitize_container_name`, `validate_time_alive`,
`find_free_port`) and `app/routers.py` (`start_docker`, `shutdown_docker`,
`delete_docker`), over an explicit model of the local docker engine's
observable state.  Each handler is a pure function from the current world and
the request to a response, the successor world, and the trace of external
commands it issued. -/

/-- Result of one engine (docker CLI) invocation: return code, stdout, stderr. -/
structure CmdResult where
  returncode : Nat
  stdout : String
  stderr : String
  deriving DecidableEq

/-- FastAPI `HTTPException`, reduced to the two fields the service sets. -/
structure HTTPError where
  status_code : Nat
  detail : String
  deriving DecidableEq

/-- Exceptions that can escape a handler body: an `HTTPException` raised by the
code itself, or the `RuntimeError` raised by `find_free_port`. -/
inductive PyExc where
  | http (e : HTTPError)
  | runtimeError (msg : String)
  deriving DecidableEq

/-- Python `str(e)`: `str` of a (fastapi/starlette) `HTTPException` renders as
`"{status_code}: {detail}"`, `str` of a `RuntimeError` is its message. -/
def strOfPyExc : PyExc → String
  | PyExc.http e => toString e.status_code ++ ": " ++ e.detail
  | PyExc.runtimeError m => m

/-- Trailing `except Exception as e: raise HTTPException(status_code=500,
detail=str(e))` shared by all three handlers; `fastapi.HTTPException` derives
from `Exception`, so the 400/404/500 errors raised inside the body are caught
here as well and re-raised with status 500. -/
def catchAll {ρ : Type} : Except PyExc ρ → Except HTTPError ρ
  | Except.ok v => Except.ok v
  | Except.error e => Except.error ⟨500, strOfPyExc e⟩

/-- Status code surfaced by a handler response: `none` on success. -/
def statusOf {ρ : Type} : Except HTTPError ρ → Option Nat
  | Except.ok _ => none
  | Except.error e => some e.status_code

/-- Decidable list membership, modelling Python's `in` on the collections the
service consults (registry, local images, used port sets). -/
def listHas {α : Type} [DecidableEq α] : List α → α → Bool
  | [], _ => false
  | x :: xs, y => if x = y then true else listHas xs y

/-- Characters `re.sub(r'[^a-zA-Z0-9_-]', '_', name)` leaves unchanged. -/
def isNameSafe (c : Char) : Bool := c.isAlpha || c.isDigit || c == '_' || c == '-'

/-- Python `str.strip()`: drop leading and trailing whitespace. -/
def pyStrip (s : String) : String :=
  String.mk (((s.data.dropWhile Char.isWhitespace).reverse.dropWhile Char.isWhitespace).reverse)

/-- Models `utils.sanitize_container_name`: empty input raises HTTP 400;
otherwise every character outside `[a-zA-Z0-9_-]` is replaced by an underscore
(the regex substitution acts character by character, as the map does). -/
def sanitize_container_name (name : String) : Except HTTPError String :=
  if name = "" then Except.error ⟨400, "Container name cannot be empty"⟩
  else Except.ok (String.mk (name.data.map (fun c => if isNameSafe c then c else '_')))

/-- Default `max_seconds` of `utils.validate_time_alive` (about six months). -/
def MAX_SECONDS : Int := 15552000

/-- Models `utils.validate_time_alive` at its default `max_seconds`; the
`isinstance(time_alive, int)` test always passes because the request schema
already types `time_alive` as `int`. -/
def validate_time_alive (time_alive : Int) : Except HTTPError Int :=
  if time_alive < 0 ∨ time_alive > MAX_SECONDS then
    Except.error ⟨400, "time_alive must be between 1 and 15552000 seconds"⟩
  else Except.ok time_alive

/-- The `for port in range(start, end)` loop of `utils.find_free_port`, by
remaining range length: first candidate not in `used`. -/
def portScan (used : List Nat) : Nat → Nat → Option Nat
  | _, 0 => none
  | s, n + 1 => if listHas used s then portScan used (s + 1) n else some s

/-- Models `utils.find_free_port`: `used_ports` is the multiset of host ports
the engine currently reports as published (the text parsing of
`docker ps --format` output is abstracted to the list of reported ports). -/
def find_free_port (s e : Nat) (used_ports : List Nat) : Except String Nat :=
  match portScan used_ports s (e - s) with
  | some p => Except.ok p
  | none =>
    Except.error ("Nenhuma porta disponível entre " ++ toString s ++ "-" ++ toString e)

/-- Tail of a Python integer literal after its first digit: ASCII digits with
single underscores allowed between digits (the `int()` grouping rule). -/
def pyNumTail : List Char → Bool
  | [] => true
  | '_' :: c :: rest => c.isDigit && pyNumTail rest
  | c :: rest => c.isDigit && pyNumTail rest

/-- Decimal value of a digit list. -/
def digitsToNat (cs : List Char) : Nat :=
  cs.foldl (fun a c => a * 10 + (c.toNat - 48)) 0

/-- Magnitude part of Python `int(...)` parsing. -/
def parsePyMag (body : List Char) (neg : Bool) : Option Int :=
  match body with
  | [] => none
  | b :: bs =>
    if b.isDigit && pyNumTail bs then
      let v : Int :=
        Int.ofNat (digitsToNat ((b :: bs).filter (fun c => if c = '_' then false else true)))
      some (if neg then -v else v)
    else none

/-- Models Python `int(label_value)` on the stripped label string: optional
sign, ASCII digits with single interior underscores; any other shape raises
`ValueError`, modelled as `none`. -/
def parsePyInt (s : String) : Option Int :=
  match (pyStrip s).data with
  | [] => none
  | c :: rest =>
    if c = '-' then parsePyMag rest true
    else if c = '+' then parsePyMag rest false
    else parsePyMag (c :: rest) false

/-- Lines 64-72 of `routers.start_docker`: the stripped `lycosidae.port` label
becomes the container port; an absent (`""` or `"<no value>"`) or non-numeric
label degrades to the default 80 instead of raising. -/
def containerPortFromLabel (label_value : String) : Int :=
  if label_value ≠ "" ∧ label_value ≠ "<no value>" then
    match parsePyInt label_value with
    | some n => n
    | none => 80
  else 80

/-- One container as the engine reports it. -/
structure Container where
  id : String
  name : String
  image : String
  running : Bool
  hostPort : Nat
  containerPort : Int
  deriving DecidableEq

/-- Observable state of the local docker engine, plus the reachable registry
and the port label each pullable image declares. -/
structure Engine where
  registry : List String
  images : List String
  labels : List (String × String)
  containers : List Container
  deriving DecidableEq

/-- Detached `sh -c "sleep {t} && docker stop {name} && docker rm {name}"`
process spawned by `start_docker` (lines 100-102); the handler keeps no handle
to it. -/
structure Spawned where
  sleepSeconds : Int
  name : String
  deriving DecidableEq

/-- Engine state plus the detached expiry processes alive on the host. -/
structure World where
  engine : Engine
  spawned : List Spawned
  deriving DecidableEq

/-- External commands a handler can issue.  `cancelExpiry` is the timer
cancellation the specification postulates; it is included so that its absence
from every handler trace is expressible — no code path of the source emits it. -/
inductive Cmd where
  | pull (ref : String)
  | inspectLabel (ref : String)
  | ps
  | run (name ref : String) (hostPort : Nat) (containerPort : Int)
  | spawnExpiry (name : String) (secs : Int)
  | stop (r : String)
  | rm (r : String)
  | inspectImage (r : String)
  | rmi (imageId : String)
  | cancelExpiry (r : String)
  deriving DecidableEq

/-- True exactly on the postulated cancellation command. -/
def isCancelCmd : Cmd → Bool
  | Cmd.cancelExpiry _ => true
  | _ => false

/-- Docker resolves `stop`/`rm`/`inspect` arguments against id or name. -/
def refMatches (c : Container) (r : String) : Bool := c.id == r || c.name == r

/-- First container matching a reference. -/
def findContainer : List Container → String → Option Container
  | [], _ => none
  | c :: cs, r => if refMatches c r then some c else findContainer cs r

/-- Mark the matching containers stopped (`docker stop`). -/
def stopList : List Container → String → List Container
  | [], _ => []
  | c :: cs, r =>
    if refMatches c r then { c with running := false } :: stopList cs r
    else c :: stopList cs r

/-- Drop the matching containers (`docker rm`). -/
def removeList : List Container → String → List Container
  | [], _ => []
  | c :: cs, r => if refMatches c r then removeList cs r else c :: removeList cs r

/-- Host ports the engine currently reports as published: `docker ps` lists the
running containers and their port mappings. -/
def reportedPorts (e : Engine) : List Nat :=
  (e.containers.filter (fun c => c.running)).map (fun c => c.hostPort)

/-- Label lookup in image metadata. -/
def lookupLabel : List (String × String) → String → Option String
  | [], _ => none
  | p :: ps, r => if p.1 = r then some p.2 else lookupLabel ps r

/-- Remove an image id from the local image store (`docker rmi`). -/
def removeImageId : List String → String → List String
  | [], _ => []
  | i :: rest, r => if i = r then removeImageId rest r else i :: removeImageId rest r

/-- Is a container name already taken on the engine. -/
def nameTaken : List Container → String → Bool
  | [], _ => false
  | c :: cs, n => if c.name = n then true else nameTaken cs n

/-- Models `docker pull ref`: succeeds exactly when the registry serves `ref`,
refreshing the local image store. -/
def dockerPull (e : Engine) (ref : String) : CmdResult × Engine :=
  if listHas e.registry ref then
    (⟨0, "pull complete", ""⟩,
     { e with images := if listHas e.images ref then e.images else e.images ++ [ref] })
  else (⟨1, "", "Error response from daemon: pull access denied for " ++ ref⟩, e)

/-- Models the read-only label inspection: a present image with no
`lycosidae.port` label renders as `"<no value>"`; an unknown image leaves
stdout empty (the handler ignores the return code either way). -/
def dockerInspectLabel (e : Engine) (ref : String) : CmdResult :=
  if listHas e.images ref then
    match lookupLabel e.labels ref with
    | some v => ⟨0, v, ""⟩
    | none => ⟨0, "<no value>", ""⟩
  else ⟨1, "", "Error: No such object: " ++ ref⟩

/-- Models `docker run -d --name name --restart unless-stopped -p h:c ref`:
fails on a name conflict, an already-bound host port, or a missing image;
otherwise prints the fresh container id on stdout. -/
def dockerRun (e : Engine) (name ref : String) (hostPort : Nat) (containerPort : Int) :
    CmdResult × Engine :=
  if nameTaken e.containers name then
    (⟨1, "", "Conflict. The container name " ++ name ++ " is already in use"⟩, e)
  else if listHas (reportedPorts e) hostPort then
    (⟨1, "", "port is already allocated"⟩, e)
  else if listHas e.images ref then
    let cid := "cid-" ++ name ++ "-" ++ toString e.containers.length
    (⟨0, cid ++ "\n", ""⟩,
     { e with containers := e.containers ++ [⟨cid, name, ref, true, hostPort, containerPort⟩] })
  else (⟨1, "", "Unable to find image " ++ ref⟩, e)

/-- Models `docker stop r`: succeeds (also on an already-stopped container)
exactly when the engine resolves `r`. -/
def dockerStop (e : Engine) (r : String) : CmdResult × Engine :=
  match findContainer e.containers r with
  | some _ => (⟨0, r, ""⟩, { e with containers := stopList e.containers r })
  | none => (⟨1, "", "Error response from daemon: No such container: " ++ r⟩, e)

/-- Models `docker rm r`: fails on an unknown reference or a still-running
container, otherwise deletes the container record. -/
def dockerRm (e : Engine) (r : String) : CmdResult × Engine :=
  match findContainer e.containers r with
  | some c =>
    if c.running then
      (⟨1, "", "cannot remove a running container"⟩, e)
    else (⟨0, r, ""⟩, { e with containers := removeList e.containers r })
  | none => (⟨1, "", "Error response from daemon: No such container: " ++ r⟩, e)

/-- Models `docker inspect --format .Image r` (read-only): once the container
is removed the reference no longer resolves and stdout is empty. -/
def dockerInspectImage (e : Engine) (r : String) : CmdResult :=
  match findContainer e.containers r with
  | some c => ⟨0, c.image ++ "\n", ""⟩
  | none => ⟨1, "", "Error: No such object: " ++ r⟩

/-- Models `docker rmi -f imageId`: an empty reference is rejected by the
client, a present image is deleted, anything else is an error. -/
def dockerRmi (e : Engine) (imageId : String) : CmdResult × Engine :=
  if imageId = "" then (⟨1, "", "invalid reference format"⟩, e)
  else if listHas e.images imageId then
    (⟨0, "Deleted: " ++ imageId, ""⟩, { e with images := removeImageId e.images imageId })
  else (⟨1, "", "Error: No such image: " ++ imageId⟩, e)

/-- Request schema of `POST /orchester/start` (`schemas.StartDockerRequest`). -/
structure StartDockerRequest where
  image_link : String
  time_alive : Int
  exercise_name : String
  competition_name : String
  competition_uuid : String
  port : Option Int
  deriving DecidableEq

/-- Request schema of `POST /orchester/shutdown`. -/
structure ShutdownDockerRequest where
  container_id : String
  deriving DecidableEq

/-- Request schema of `POST /orchester/delete`. -/
structure DeleteDockerRequest where
  container_id : String
  deriving DecidableEq

/-- Success payload of `start_docker`. -/
structure StartResponse where
  status : String
  container_id : String
  time_alive : Int
  host_port : Nat
  service_url : String
  deriving DecidableEq

/-- Success payload of `shutdown_docker`. -/
structure ShutdownResponse where
  status : String
  container_id : String
  deriving DecidableEq

/-- Success payload of `delete_docker`. -/
structure DeleteResponse where
  status : String
  container_id : String
  image_id : String
  deriving DecidableEq

/-- What one handler invocation produces: the HTTP response, the successor
world, and the trace of external commands issued, in order. -/
structure HandlerOutput (ρ : Type) where
  response : Except HTTPError ρ
  world : World
  trace : List Cmd

/-- Body of the `try:` block of `routers.start_docker` (lines 47-113):
sanitize, validate, pull (404 on failure), read the port label (default 80),
allocate a host port over 50000-60000, run the container (500 on failure),
then — only when `time_alive > 0` — spawn the detached sleep/stop/rm failsafe. -/
def start_docker_body (publicIP : String) (w : World) (req : StartDockerRequest) :
    Except PyExc StartResponse × World × List Cmd :=
  match sanitize_container_name req.exercise_name with
  | Except.error e => (Except.error (PyExc.http e), w, [])
  | Except.ok container_name =>
    match validate_time_alive req.time_alive with
    | Except.error e => (Except.error (PyExc.http e), w, [])
    | Except.ok time_alive =>
      let pullRes := dockerPull w.engine req.image_link
      let w1 : World := { w with engine := pullRes.2 }
      if pullRes.1.returncode ≠ 0 then
        (Except.error (PyExc.http ⟨404, "Failed to pull image: " ++ pyStrip pullRes.1.stderr⟩),
         w1, [Cmd.pull req.image_link])
      else
        let label_value := pyStrip (dockerInspectLabel w1.engine req.image_link).stdout
        let container_port := containerPortFromLabel label_value
        match find_free_port 50000 60000 (reportedPorts w1.engine) with
        | Except.error msg =>
          (Except.error (PyExc.runtimeError msg), w1,
           [Cmd.pull req.image_link, Cmd.inspectLabel req.image_link, Cmd.ps])
        | Except.ok host_port =>
          let runRes := dockerRun w1.engine container_name req.image_link host_port container_port
          let w2 : World := { w1 with engine := runRes.2 }
          let tr : List Cmd :=
            [Cmd.pull req.image_link, Cmd.inspectLabel req.image_link, Cmd.ps,
             Cmd.run container_name req.image_link host_port container_port]
          if runRes.1.returncode ≠ 0 then
            (Except.error (PyExc.http ⟨500, "Failed to start container: " ++ pyStrip runRes.1.stderr⟩),
             w2, tr)
          else
            let container_id := pyStrip runRes.1.stdout
            if time_alive > 0 then
              (Except.ok ⟨"success", container_id, time_alive, host_port,
                 "http://" ++ publicIP ++ ":" ++ toString host_port⟩,
               { w2 with spawned := w2.spawned ++ [⟨time_alive, container_name⟩] },
               tr ++ [Cmd.spawnExpiry container_name time_alive])
            else
              (Except.ok ⟨"success", container_id, time_alive, host_port,
                 "http://" ++ publicIP ++ ":" ++ toString host_port⟩,
               w2, tr)

/-- `routers.start_docker`: the body wrapped by the trailing catch-all. -/
def start_docker (publicIP : String) (w : World) (req : StartDockerRequest) :
    HandlerOutput StartResponse :=
  let r := start_docker_body publicIP w req
  ⟨catchAll r.1, r.2.1, r.2.2⟩

/-- Body of the `try:` block of `routers.shutdown_docker` (lines 141-158):
`docker stop` (404 on failure), then `docker rm` (500 on failure). -/
def shutdown_docker_body (w : World) (req : ShutdownDockerRequest) :
    Except PyExc ShutdownResponse × World × List Cmd :=
  let stopRes := dockerStop w.engine req.container_id
  let w1 : World := { w with engine := stopRes.2 }
  if stopRes.1.returncode ≠ 0 then
    (Except.error (PyExc.http ⟨404, "Failed to stop container: " ++ pyStrip stopRes.1.stderr⟩),
     w1, [Cmd.stop req.container_id])
  else
    let rmRes := dockerRm w1.engine req.container_id
    let w2 : World := { w1 with engine := rmRes.2 }
    if rmRes.1.returncode ≠ 0 then
      (Except.error (PyExc.http ⟨500, "Failed to remove container: " ++ pyStrip rmRes.1.stderr⟩),
       w2, [Cmd.stop req.container_id, Cmd.rm req.container_id])
    else
      (Except.ok ⟨"success", req.container_id⟩, w2,
       [Cmd.stop req.container_id, Cmd.rm req.container_id])

/-- `routers.shutdown_docker`: the body wrapped by the trailing catch-all. -/
def shutdown_docker (w : World) (req : ShutdownDockerRequest) :
    HandlerOutput ShutdownResponse :=
  let r := shutdown_docker_body w req
  ⟨catchAll r.1, r.2.1, r.2.2⟩

/-- Body of the `try:` block of `routers.delete_docker` (lines 193-227):
`docker stop` with its result ignored, `docker rm` (404 on failure), only
then `docker inspect --format .Image` on the now-removed id (return code
ignored, stdout stripped), and `docker rmi -f` on that value (500 on failure). -/
def delete_docker_body (w : World) (req : DeleteDockerRequest) :
    Except PyExc DeleteResponse × World × List Cmd :=
  let cid := req.container_id
  let stopRes := dockerStop w.engine cid
  let w1 : World := { w with engine := stopRes.2 }
  let rmRes := dockerRm w1.engine cid
  let w2 : World := { w1 with engine := rmRes.2 }
  if rmRes.1.returncode ≠ 0 then
    (Except.error (PyExc.http ⟨404, "Failed to remove container: " ++ pyStrip rmRes.1.stderr⟩),
     w2, [Cmd.stop cid, Cmd.rm cid])
  else
    let image_id := pyStrip (dockerInspectImage w2.engine cid).stdout
    let rmiRes := dockerRmi w2.engine image_id
    let w3 : World := { w2 with engine := rmiRes.2 }
    if rmiRes.1.returncode ≠ 0 then
      (Except.error (PyExc.http ⟨500, "Failed to remove image: " ++ pyStrip rmiRes.1.stderr⟩),
       w3, [Cmd.stop cid, Cmd.rm cid, Cmd.inspectImage cid, Cmd.rmi image_id])
    else
      (Except.ok ⟨"success", cid, image_id⟩, w3,
       [Cmd.stop cid, Cmd.rm cid, Cmd.inspectImage cid, Cmd.rmi image_id])

/-- `routers.delete_docker`: the body wrapped by the trailing catch-all. -/
def delete_docker (w : World) (req : DeleteDockerRequest) :
    HandlerOutput DeleteResponse :=
  let r := delete_docker_body w req
  ⟨catchAll r.1, r.2.1, r.2.2⟩

/-- What a pending expiry process does once its sleep elapses:
`docker stop {name} && docker rm {name}` — the second command runs only when
the first succeeded, and nothing is notified or recorded either way. -/
def runSpawned (w : World) (sp : Spawned) : World × List Cmd :=
  let stopRes := dockerStop w.engine sp.name
  if stopRes.1.returncode ≠ 0 then
    ({ w with engine := stopRes.2 }, [Cmd.stop sp.name])
  else
    let rmRes := dockerRm stopRes.2 sp.name
    ({ w with engine := rmRes.2 }, [Cmd.stop sp.name, Cmd.rm sp.name])

/-- Two `find_free_port` calls from the same world with no intervening
container run: the allocator holds no reservation state between them. -/
def twoConsecutiveAllocations (w : World) : Except String Nat × Except String Nat :=
  (find_free_port 50000 60000 (reportedPorts w.engine),
   find_free_port 50000 60000 (reportedPorts w.engine))

/-- Ascending list of candidate ports `[s, s+1, ..., s+n-1]`, used to build a
world whose engine reports the whole allocation range as bound. -/
def portsFrom : Nat → Nat → List Nat
  | _, 0 => []
  | s, n + 1 => s :: portsFrom (s + 1) n

/-- A running container publishing host port `p`. -/
def mkBusy (p : Nat) : Container :=
  ⟨"busy-" ++ toString p, "busy-" ++ toString p, "img0", true, p, 80⟩

/-- A world with a registry serving `img` and no local state. -/
def worldEmpty : World := ⟨⟨["img"], [], [], []⟩, []⟩

/-- A world whose engine reports every port of the 50000-60000 range as
already published by a running container. -/
def worldFull : World := ⟨⟨["img"], ["img0"], [], (portsFrom 50000 10000).map mkBusy⟩, []⟩

/-- A start request with a five-second lifetime. -/
def reqStart : StartDockerRequest := ⟨"img", 5, "ex1", "compX", "uuidX", none⟩

/-- A valid persistent start request (`time_alive = 0`). -/
def reqOk : StartDockerRequest := ⟨"img", 0, "ex2", "compX", "uuidX", none⟩

/-- The outcome of starting `reqStart` on the empty world: the container
`cid-ex1-0` runs and a five-second expiry process is spawned. -/
def startOut : HandlerOutput StartResponse := start_docker ("203.0.113.7") worldEmpty reqStart

/-- The outcome of manually shutting the started container down. -/
def afterShutdown : HandlerOutput ShutdownResponse :=
  shutdown_docker startOut.world ⟨"cid-ex1-0"⟩

/-- A single running container `c1` backed by image `imgA`. -/
def contOne : Container := ⟨"c1", "exA", "imgA", true, 50000, 80⟩

/-- A world holding exactly the container `c1`, its image present locally. -/
def worldOne : World := ⟨⟨[], ["imgA"], [], [contOne]⟩, []⟩

/-- The port scan returns only in-range free candidates, and every candidate
below the returned one is reported bound (first-fit over the ascending scan). -/
theorem portScan_ok (used : List Nat) :
    ∀ n s p, portScan used s n = some p →
      listHas used p = false ∧ s ≤ p ∧ p < s + n ∧
        ∀ q, s ≤ q → q < p → listHas used q = true := by
  intro n
  induction n with
  | zero => intro s p h; simp [portScan] at h
  | succ n ih =>
    intro s p h
    cases hc : listHas used s with
    | true =>
      simp only [portScan, hc, if_true] at h
      obtain ⟨h1, h2, h3, h4⟩ := ih (s + 1) p h
      refine ⟨h1, by omega, by omega, ?_⟩
      intro q hq1 hq2
      by_cases he : q = s
      · rw [he]; exact hc
      · exact h4 q (by omega) hq2
    | false =>
      simp only [portScan, hc] at h
      simp only [Bool.false_eq_true, if_false, Option.some.injEq] at h
      subst h
      exact ⟨hc, le_refl s, by omega, fun q hq1 hq2 => absurd hq2 (by omega)⟩

/-- When every candidate of the range is reported bound, the scan exhausts. -/
theorem portScan_none_of (used : List Nat) :
    ∀ n s, (∀ q, s ≤ q → q < s + n → listHas used q = true) → portScan used s n = none := by
  intro n
  induction n with
  | zero => intro s _; rfl
  | succ n ih =>
    intro s hall
    have hs : listHas used s = true := hall s (le_refl s) (by omega)
    simp only [portScan, hs, if_true]
    exact ih (s + 1) (fun q hq1 hq2 => hall q (by omega) (by omega))

/-- Conversely, an exhausted scan means every candidate was reported bound. -/
theorem portScan_none_imp (used : List Nat) :
    ∀ n s, portScan used s n = none → ∀ q, s ≤ q → q < s + n → listHas used q = true := by
  intro n
  induction n with
  | zero => intro s _ q hq1 hq2; exact absurd hq2 (by omega)
  | succ n ih =>
    intro s h q hq1 hq2
    cases hc : listHas used s with
    | false =>
      simp only [portScan, hc, Bool.false_eq_true, if_false] at h
      exact absurd h (Option.some_ne_none s)
    | true =>
      simp only [portScan, hc, if_true] at h
      by_cases he : q = s
      · rw [he]; exact hc
      · exact ih (s + 1) h q (by omega) (by omega)

/-- Membership in the ascending candidate list. -/
theorem portsFrom_has (n : Nat) :
    ∀ s q, s ≤ q → q < s + n → listHas (portsFrom s n) q = true := by
  induction n with
  | zero => intro s q h1 h2; exact absurd h2 (by omega)
  | succ n ih =>
    intro s q h1 h2
    by_cases he : s = q
    · simp only [portsFrom, listHas, he, if_pos]
    · simp only [portsFrom, listHas]
      rw [if_neg he]
      exact ih (s + 1) q (by omega) (by omega)

/-- With the whole 50000-60000 range reported bound, `find_free_port` raises
its `RuntimeError`. -/
theorem ffp_exhausted (used : List Nat)
    (hall : ∀ q, 50000 ≤ q → q < 60000 → listHas used q = true) :
    find_free_port 50000 60000 used =
      Except.error ("Nenhuma porta disponível entre 50000-60000") := by
  have hscan : portScan used 50000 (60000 - 50000) = none :=
    portScan_none_of used (60000 - 50000) 50000 (fun q h1 h2 => hall q h1 (by omega))
  unfold find_free_port
  rw [hscan]
  rfl

/-- The engine of a world built from `mkBusy` containers reports exactly the
chosen port list. -/
theorem reportedPorts_busy (reg : List String) (imgs : List String)
    (lbls : List (String × String)) :
    ∀ ps : List Nat, reportedPorts ⟨reg, imgs, lbls, ps.map mkBusy⟩ = ps := by
  intro ps
  induction ps with
  | nil => rfl
  | cons p rest ih =>
    show (((mkBusy p :: rest.map mkBusy).filter (fun c => c.running)).map
        (fun c => c.hostPort)) = p :: rest
    rw [List.filter_cons_of_pos]
    · rw [List.map_cons]
      exact congrArg (List.cons p) ih
    · rfl

/-- `worldFull` indeed reports every port of the allocation range as bound. -/
theorem worldFull_exhausted :
    ∀ q, 50000 ≤ q → q < 60000 → listHas (reportedPorts worldFull.engine) q = true := by
  intro q h1 h2
  have he : reportedPorts worldFull.engine = portsFrom 50000 10000 :=
    reportedPorts_busy ["img"] ["img0"] [] (portsFrom 50000 10000)
  rw [he]
  exact portsFrom_has 10000 50000 q h1 (by omega)

/-- Any error surfaced through the trailing catch-all carries status 500. -/
theorem catchAll_error {ρ : Type} (r : Except PyExc ρ) (e : HTTPError)
    (h : catchAll r = Except.error e) : e.status_code = 500 := by
  cases r with
  | ok v => exact absurd h (by simp [catchAll])
  | error pe =>
    simp only [catchAll, Except.error.injEq] at h
    rw [← h]

/-- `docker stop` on a resolvable reference succeeds and stops the matches. -/
theorem dockerStop_found (e : Engine) (r : String) (c : Container)
    (hf : findContainer e.containers r = some c) :
    dockerStop e r = (⟨0, r, ""⟩, { e with containers := stopList e.containers r }) := by
  simp only [dockerStop, hf]

/-- `docker stop` on an unknown reference fails and changes nothing. -/
theorem dockerStop_missing (e : Engine) (r : String)
    (hf : findContainer e.containers r = none) :
    dockerStop e r = (⟨1, "", "Error response from daemon: No such container: " ++ r⟩, e) := by
  simp only [dockerStop, hf]

/-- `docker rm` on an unknown reference fails and changes nothing. -/
theorem dockerRm_missing (e : Engine) (r : String)
    (hf : findContainer e.containers r = none) :
    dockerRm e r = (⟨1, "", "Error response from daemon: No such container: " ++ r⟩, e) := by
  simp only [dockerRm, hf]

/-- `docker rm` on a resolvable stopped container deletes it. -/
theorem dockerRm_found_stopped (e : Engine) (r : String) (c : Container)
    (hf : findContainer e.containers r = some c) (hr : c.running = false) :
    dockerRm e r = (⟨0, r, ""⟩, { e with containers := removeList e.containers r }) := by
  simp only [dockerRm, hf, hr, Bool.false_eq_true, if_false]

/-- Stopping preserves resolvability: the found record is merely stopped. -/
theorem findContainer_stopList (l : List Container) (r : String) :
    findContainer (stopList l r) r =
      (findContainer l r).map (fun c => { c with running := false }) := by
  induction l with
  | nil => rfl
  | cons c cs ih =>
    cases hm : refMatches c r with
    | true =>
      have hm2 : refMatches { c with running := false } r = true := hm
      simp only [stopList, findContainer, hm, if_true, hm2]
      rfl
    | false =>
      have hm2 : refMatches { c with running := false } r = false := hm
      simp only [stopList, findContainer, hm, hm2, Bool.false_eq_true, if_false, ih]

/-- After removal a reference no longer resolves. -/
theorem findContainer_removeList (l : List Container) (r : String) :
    findContainer (removeList l r) r = none := by
  induction l with
  | nil => rfl
  | cons c cs ih =>
    cases hm : refMatches c r with
    | true => simp only [removeList, hm, if_true, ih]
    | false => simp only [removeList, findContainer, hm, Bool.false_eq_true, if_false, ih]

/-- Full behaviour of `delete_docker` on a resolvable container: stop and
removal succeed, the image inspection happens only after removal (so it yields
the empty string), and the forced `rmi` of that empty reference fails, turning
the whole request into an HTTP 500. -/
theorem delete_existing_full (w : World) (cid : String) (c : Container)
    (h : findContainer w.engine.containers cid = some c) :
    delete_docker w ⟨cid⟩ =
      ⟨Except.error ⟨500, "500: Failed to remove image: invalid reference format"⟩,
       ⟨{ w.engine with containers := removeList (stopList w.engine.containers cid) cid },
        w.spawned⟩,
       [Cmd.stop cid, Cmd.rm cid, Cmd.inspectImage cid, Cmd.rmi ("")]⟩ := by
  have hstop := dockerStop_found w.engine cid c h
  have hfind2 : findContainer (stopList w.engine.containers cid) cid =
      some { c with running := false } := by
    rw [findContainer_stopList, h]
    rfl
  have hrm : dockerRm { w.engine with containers := stopList w.engine.containers cid } cid =
      (⟨0, cid, ""⟩,
       { w.engine with containers := removeList (stopList w.engine.containers cid) cid }) :=
    dockerRm_found_stopped _ cid { c with running := false } hfind2 rfl
  have hinsp : dockerInspectImage
      { w.engine with containers := removeList (stopList w.engine.containers cid) cid } cid =
      ⟨1, "", "Error: No such object: " ++ cid⟩ := by
    simp only [dockerInspectImage, findContainer_removeList]
  have hps0 : pyStrip ("") = "" := rfl
  have hps1 : pyStrip ("invalid reference format") = "invalid reference format" := rfl
  have hrmi : dockerRmi
      { w.engine with containers := removeList (stopList w.engine.containers cid) cid } "" =
      (⟨1, "", "invalid reference format"⟩,
       { w.engine with containers := removeList (stopList w.engine.containers cid) cid }) := by
    unfold dockerRmi
    rw [if_pos rfl]
  have hca : (catchAll (Except.error (PyExc.http
        ⟨500, "Failed to remove image: " ++ "invalid reference format"⟩)) :
        Except HTTPError DeleteResponse) =
      Except.error ⟨500, "500: Failed to remove image: invalid reference format"⟩ := by
    simp only [catchAll]
    have hmsg : strOfPyExc (PyExc.http
        ⟨500, "Failed to remove image: " ++ "invalid reference format"⟩) =
        "500: Failed to remove image: invalid reference format" := by decide
    rw [hmsg]
  simp only [delete_docker, delete_docker_body, hstop, hrm, hinsp, hps0, hrmi, hps1]
  rw [if_neg (show ¬((0:Nat) ≠ 0) by omega), if_pos (show ((1:Nat) ≠ 0) by omega)]
  dsimp only
  rw [hca]

/-- A validation failure (empty name or out-of-range lifetime) aborts
`start_docker` before any external command is issued. -/
theorem start_validation_clean (pub : String) (w : World) (req : StartDockerRequest)
    (h : req.exercise_name = "" ∨ req.time_alive < 0 ∨ req.time_alive > MAX_SECONDS) :
    (start_docker pub w req).trace = [] := by
  show (start_docker_body pub w req).2.2 = []
  rcases h with h | h
  · have hs : sanitize_container_name req.exercise_name =
        Except.error ⟨400, "Container name cannot be empty"⟩ := by
      unfold sanitize_container_name
      rw [if_pos h]
    simp only [start_docker_body, hs]
  · by_cases hn : req.exercise_name = ""
    · have hs : sanitize_container_name req.exercise_name =
          Except.error ⟨400, "Container name cannot be empty"⟩ := by
        unfold sanitize_container_name
        rw [if_pos hn]
      simp only [start_docker_body, hs]
    · have hs : sanitize_container_name req.exercise_name =
          Except.ok (String.mk (req.exercise_name.data.map
            (fun c => if isNameSafe c then c else '_'))) := by
        unfold sanitize_container_name
        rw [if_neg hn]
      have hv : validate_time_alive req.time_alive =
          Except.error ⟨400, "time_alive must be between 1 and 15552000 seconds"⟩ := by
        unfold validate_time_alive
        rw [if_pos h]
      simp only [start_docker_body, hs, hv]

/-- On a valid request whose image pulls but whose port range is exhausted,
`start_docker` fails only after the pull (and the read-only label inspection
and `docker ps`) have already been issued; no container run happens. -/
theorem start_alloc_after_pull (pub : String) (w : World) (req : StartDockerRequest)
    (hname : ¬ req.exercise_name = "")
    (ht : ¬ (req.time_alive < 0 ∨ req.time_alive > MAX_SECONDS))
    (hreg : listHas w.engine.registry req.image_link = true)
    (hfull : ∀ q, 50000 ≤ q → q < 60000 → listHas (reportedPorts w.engine) q = true) :
    (start_docker pub w req).trace =
      [Cmd.pull req.image_link, Cmd.inspectLabel req.image_link, Cmd.ps] ∧
    statusOf (start_docker pub w req).response = some 500 := by
  have hs : sanitize_container_name req.exercise_name =
      Except.ok (String.mk (req.exercise_name.data.map
        (fun c => if isNameSafe c then c else '_'))) := by
    unfold sanitize_container_name
    rw [if_neg hname]
  have hv : validate_time_alive req.time_alive = Except.ok req.time_alive := by
    unfold validate_time_alive
    rw [if_neg ht]
  have hpull : dockerPull w.engine req.image_link =
      (⟨0, "pull complete", ""⟩,
       { w.engine with images := if listHas w.engine.images req.image_link then w.engine.images
          else w.engine.images ++ [req.image_link] }) := by
    unfold dockerPull
    rw [if_pos hreg]
  have hfp : find_free_port 50000 60000 (reportedPorts
      { w.engine with images := if listHas w.engine.images req.image_link then w.engine.images
         else w.engine.images ++ [req.image_link] }) =
      Except.error ("Nenhuma porta disponível entre 50000-60000") :=
    ffp_exhausted _ hfull
  constructor
  · show (start_docker_body pub w req).2.2 = _
    simp only [start_docker_body, hs, hv, hpull, hfp]
    rw [if_neg (show ¬((0:Nat) ≠ 0) by omega)]
  · show statusOf (catchAll (start_docker_body pub w req).1) = some 500
    simp only [start_docker_body, hs, hv, hpull, hfp]
    rw [if_neg (show ¬((0:Nat) ≠ 0) by omega)]
    rfl

/-- C1 (amended): shutdown and delete are not idempotent no-ops on an id the
engine no longer knows: `docker stop` (resp. `docker rm`) fails there, the
handler raises 404, and the catch-all surfaces HTTP 500 — an error, not a
success. -/
theorem C1_theorem (w : World) (cid : String)
    (h : findContainer w.engine.containers cid = none) :
    statusOf (shutdown_docker w ⟨cid⟩).response = some 500 ∧
    statusOf (delete_docker w ⟨cid⟩).response = some 500 := by
  have hstop := dockerStop_missing w.engine cid h
  have hrm := dockerRm_missing w.engine cid h
  constructor
  · show statusOf (catchAll (shutdown_docker_body w ⟨cid⟩).1) = some 500
    simp only [shutdown_docker_body, hstop]
    rw [if_pos (show ((1:Nat) ≠ 0) by omega)]
    rfl
  · show statusOf (catchAll (delete_docker_body w ⟨cid⟩).1) = some 500
    simp only [delete_docker_body, hstop, hrm]
    rw [if_pos (show ((1:Nat) ≠ 0) by omega)]
    rfl

/-- C1 (counterexample): on a world whose engine knows no container, shutdown
and delete of id `gone` return HTTP 500 errors — and so does a second call —
refuting the claimed no-op success of either call on an already-removed id. -/
theorem C1_counterexample :
    statusOf (shutdown_docker worldEmpty ⟨"gone"⟩).response = some 500 ∧
    statusOf (shutdown_docker (shutdown_docker worldEmpty ⟨"gone"⟩).world ⟨"gone"⟩).response =
      some 500 ∧
    statusOf (delete_docker worldEmpty ⟨"gone"⟩).response = some 500 ∧
    statusOf (delete_docker (delete_docker worldEmpty ⟨"gone"⟩).world ⟨"gone"⟩).response =
      some 500 := by
  refine ⟨?_, ?_, ?_, ?_⟩ <;> decide

/-- C1 (witness): the amended theorem applied to the unknown id `ghost`. -/
theorem C1_witness :
    findContainer worldEmpty.engine.containers ("ghost") = none ∧
    statusOf (shutdown_docker worldEmpty ⟨"ghost"⟩).response = some 500 ∧
    statusOf (delete_docker worldEmpty ⟨"ghost"⟩).response = some 500 :=
  ⟨rfl, (C1_theorem worldEmpty ("ghost") rfl).1, (C1_theorem worldEmpty ("ghost") rfl).2⟩

/-- C2 (amended): for every delete of a resolvable container, the image
inspection is issued strictly after `docker rm`, at which point the id no
longer resolves, so the captured image id is the empty string and the
best-effort `rmi` is issued against `""`. -/
theorem C2_theorem (w : World) (cid : String) (c : Container)
    (h : findContainer w.engine.containers cid = some c) :
    (delete_docker w ⟨cid⟩).trace =
      [Cmd.stop cid, Cmd.rm cid, Cmd.inspectImage cid, Cmd.rmi ("")] := by
  rw [delete_existing_full w cid c h]

/-- C2 (counterexample): deleting `c1`, whose image is `imgA`, issues the
inspect after the rm and then an `rmi` of the empty string — the image id was
not captured before removal, and the captured value is not `imgA`. -/
theorem C2_counterexample :
    worldOne.engine.containers = [contOne] ∧ contOne.image = "imgA" ∧
    (delete_docker worldOne ⟨"c1"⟩).trace =
      [Cmd.stop ("c1"), Cmd.rm ("c1"), Cmd.inspectImage ("c1"), Cmd.rmi ("")] := by
  refine ⟨rfl, rfl, ?_⟩
  decide

/-- C2 (witness): the amended theorem applied to the container `c1`. -/
theorem C2_witness :
    findContainer worldOne.engine.containers ("c1") = some contOne ∧
    (delete_docker worldOne ⟨"c1"⟩).trace =
      [Cmd.stop ("c1"), Cmd.rm ("c1"), Cmd.inspectImage ("c1"), Cmd.rmi ("")] :=
  ⟨rfl, C2_theorem worldOne ("c1") contOne rfl⟩

/-- C3 (amended): no teardown path cancels anything: shutdown and delete leave
the set of pending detached expiry processes untouched and their traces
contain no cancellation command — the code has no cancellation mechanism, so a
spawned expiry process always remains pending after a manual teardown. -/
theorem C3_theorem (w : World) (r1 : ShutdownDockerRequest) (r2 : DeleteDockerRequest) :
    (shutdown_docker w r1).world.spawned = w.spawned ∧
    ((shutdown_docker w r1).trace.all (fun c => !(isCancelCmd c))) = true ∧
    (delete_docker w r2).world.spawned = w.spawned ∧
    ((delete_docker w r2).trace.all (fun c => !(isCancelCmd c))) = true := by
  refine ⟨?_, ?_, ?_, ?_⟩
  · show (shutdown_docker_body w r1).2.1.spawned = w.spawned
    simp only [shutdown_docker_body]
    split
    · rfl
    · split
      · rfl
      · rfl
  · show ((shutdown_docker_body w r1).2.2.all (fun c => !(isCancelCmd c))) = true
    simp only [shutdown_docker_body]
    split
    · rfl
    · split
      · rfl
      · rfl
  · show (delete_docker_body w r2).2.1.spawned = w.spawned
    simp only [delete_docker_body]
    split
    · rfl
    · split
      · rfl
      · rfl
  · show ((delete_docker_body w r2).2.2.all (fun c => !(isCancelCmd c))) = true
    simp only [delete_docker_body]
    split
    · rfl
    · split
      · rfl
      · rfl

/-- C3 (counterexample): starting `ex1` with a five-second lifetime spawns a
detached expiry process; a manual shutdown of the started container succeeds
yet issues no cancellation and leaves that process pending, and firing it
afterwards still executes its command chain (a failing `docker stop ex1`) —
refuting the claim that manual teardown cancels the timer so that the
teardown callback never executes. -/
theorem C3_counterexample :
    startOut.world.spawned = [⟨5, "ex1"⟩] ∧
    statusOf afterShutdown.response = none ∧
    afterShutdown.world.spawned = [⟨5, "ex1"⟩] ∧
    (afterShutdown.trace.all (fun c => !(isCancelCmd c))) = true ∧
    (runSpawned afterShutdown.world ⟨5, "ex1"⟩).2 = [Cmd.stop ("ex1")] := by
  refine ⟨?_, ?_, ?_, ?_, ?_⟩ <;> decide

/-- C4 (amended): on every delete of a resolvable container the stop and
removal succeed, yet the subsequent best-effort image removal (always handed
the empty, unresolvable image id) fails and turns the whole delete into an
HTTP 500 error — an image-removal failure does fail the overall operation. -/
theorem C4_theorem (w : World) (cid : String) (c : Container)
    (h : findContainer w.engine.containers cid = some c) :
    (delete_docker w ⟨cid⟩).world.engine.containers =
      removeList (stopList w.engine.containers cid) cid ∧
    (delete_docker w ⟨cid⟩).response =
      Except.error ⟨500, "500: Failed to remove image: invalid reference format"⟩ := by
  rw [delete_existing_full w cid c h]
  exact ⟨rfl, rfl⟩

/-- C4 (counterexample): deleting `c1` removes the container from the engine
(stop and rm succeeded), yet the response is an HTTP 500 error caused by the
failing image removal — the delete did not stay successful. -/
theorem C4_counterexample :
    (delete_docker worldOne ⟨"c1"⟩).world.engine.containers = [] ∧
    statusOf (delete_docker worldOne ⟨"c1"⟩).response = some 500 := by
  refine ⟨?_, ?_⟩ <;> decide

/-- C4 (witness): the amended theorem applied to the container `c1`. -/
theorem C4_witness :
    findContainer worldOne.engine.containers ("c1") = some contOne ∧
    ((delete_docker worldOne ⟨"c1"⟩).world.engine.containers =
        removeList (stopList worldOne.engine.containers ("c1")) ("c1") ∧
      (delete_docker worldOne ⟨"c1"⟩).response =
        Except.error ⟨500, "500: Failed to remove image: invalid reference format"⟩) :=
  ⟨rfl, C4_theorem worldOne ("c1") contOne rfl⟩

/-- C5 (amended): validation failures are detected before any external side
effect (empty command trace), but a port-allocation failure is detected only
after the image pull: the trace then already contains the pull (plus the
read-only label inspection and `docker ps`), though no container run. -/
theorem C5_theorem (pub : String) (w : World) (req : StartDockerRequest) :
    ((req.exercise_name = "" ∨ req.time_alive < 0 ∨ req.time_alive > MAX_SECONDS) →
       (start_docker pub w req).trace = []) ∧
    (¬ req.exercise_name = "" → ¬ (req.time_alive < 0 ∨ req.time_alive > MAX_SECONDS) →
       listHas w.engine.registry req.image_link = true →
       (∀ q, 50000 ≤ q → q < 60000 → listHas (reportedPorts w.engine) q = true) →
       (start_docker pub w req).trace =
         [Cmd.pull req.image_link, Cmd.inspectLabel req.image_link, Cmd.ps] ∧
       statusOf (start_docker pub w req).response = some 500) :=
  ⟨fun h => start_validation_clean pub w req h,
   fun h1 h2 h3 h4 => start_alloc_after_pull pub w req h1 h2 h3 h4⟩

/-- C5 (counterexample): with every port of the range reported bound, a valid
start request fails on allocation, but its trace already contains the image
pull — the failure is not detected before every external side effect. -/
theorem C5_counterexample :
    statusOf (start_docker ("203.0.113.7") worldFull reqOk).response = some 500 ∧
    (start_docker ("203.0.113.7") worldFull reqOk).trace =
      [Cmd.pull ("img"), Cmd.inspectLabel ("img"), Cmd.ps] := by
  obtain ⟨ht, hst⟩ := start_alloc_after_pull ("203.0.113.7") worldFull reqOk
    (by decide) (by decide) (by decide) worldFull_exhausted
  exact ⟨hst, ht⟩

/-- C5 (witness): the amended theorem applied to an empty-name request (no
command issued) and to a valid request on the exhausted world (pull already
issued when allocation fails). -/
theorem C5_witness :
    (start_docker ("1.1.1.1") worldEmpty ⟨"img", 5, "", "compX", "uuidX", none⟩).trace = [] ∧
    ((start_docker ("198.51.100.4") worldFull reqOk).trace =
       [Cmd.pull ("img"), Cmd.inspectLabel ("img"), Cmd.ps] ∧
     statusOf (start_docker ("198.51.100.4") worldFull reqOk).response = some 500) :=
  ⟨(C5_theorem ("1.1.1.1") worldEmpty ⟨"img", 5, "", "compX", "uuidX", none⟩).1 (Or.inl rfl),
   (C5_theorem ("198.51.100.4") worldFull reqOk).2 (by decide) (by decide) (by decide)
     worldFull_exhausted⟩

/-- C6: over the fixed range (50000 inclusive to 60000 exclusive) the
allocator returns the first free candidate of the ascending scan — an
in-range port not reported bound, every smaller candidate being bound — and
it fails with the resource-exhausted `RuntimeError` exactly when every port of
the range is reported bound. -/
theorem C6_theorem (used : List Nat) (p : Nat) :
    (find_free_port 50000 60000 used = Except.ok p →
       listHas used p = false ∧ 50000 ≤ p ∧ p < 60000 ∧
         ∀ q, 50000 ≤ q → q < p → listHas used q = true) ∧
    ((∀ q, 50000 ≤ q → q < 60000 → listHas used q = true) →
       find_free_port 50000 60000 used =
         Except.error ("Nenhuma porta disponível entre 50000-60000")) ∧
    (find_free_port 50000 60000 used =
         Except.error ("Nenhuma porta disponível entre 50000-60000") →
       ∀ q, 50000 ≤ q → q < 60000 → listHas used q = true) := by
  refine ⟨?_, ?_, ?_⟩
  · intro h
    unfold find_free_port at h
    cases hscan : portScan used 50000 (60000 - 50000) with
    | none => rw [hscan] at h; exact absurd h (by simp)
    | some p0 =>
      rw [hscan] at h
      simp only [Except.ok.injEq] at h
      subst h
      obtain ⟨h1, h2, h3, h4⟩ := portScan_ok used (60000 - 50000) 50000 p0 hscan
      exact ⟨h1, h2, by omega, h4⟩
  · intro hall
    exact ffp_exhausted used hall
  · intro h q h1 h2
    unfold find_free_port at h
    cases hscan : portScan used 50000 (60000 - 50000) with
    | none => exact portScan_none_imp used (60000 - 50000) 50000 hscan q h1 (by omega)
    | some p0 => rw [hscan] at h; exact absurd h (by simp)

/-- C6 (witness): with only port 50000 bound the allocator returns 50001,
first-fit; with the whole range bound it raises the exhaustion error. -/
theorem C6_witness :
    (listHas [50000] 50001 = false ∧ 50000 ≤ 50001 ∧ 50001 < 60000 ∧
       ∀ q, 50000 ≤ q → q < 50001 → listHas [50000] q = true) ∧
    find_free_port 50000 60000 (portsFrom 50000 10000) =
      Except.error ("Nenhuma porta disponível entre 50000-60000") := by
  constructor
  · exact (C6_theorem [50000] 50001).1 (by rfl)
  · exact (C6_theorem (portsFrom 50000 10000) 0).2.1
      (fun q h1 h2 => portsFrom_has 10000 50000 q h1 (by omega))

/-- C7: reading the port label never fails the caller: an absent label (empty
or `<no value>`) or a non-numeric one degrades to the default container port
80, and a numeric label yields its value. -/
theorem C7_theorem (label : String) :
    ((label = "" ∨ label = "<no value>" ∨ parsePyInt label = none) →
       containerPortFromLabel label = 80) ∧
    (∀ n : Int, ¬ label = "" → ¬ label = "<no value>" → parsePyInt label = some n →
       containerPortFromLabel label = n) := by
  constructor
  · intro h
    by_cases hc : label ≠ "" ∧ label ≠ "<no value>"
    · rcases h with h | h | h
      · exact absurd h hc.1
      · exact absurd h hc.2
      · unfold containerPortFromLabel
        rw [if_pos hc, h]
    · unfold containerPortFromLabel
      rw [if_neg hc]
  · intro n h1 h2 h3
    unfold containerPortFromLabel
    rw [if_pos ⟨h1, h2⟩, h3]

/-- C7 (witness): the non-numeric label `abc` degrades to 80 and the numeric
label `8080` yields 8080. -/
theorem C7_witness :
    (parsePyInt ("abc") = none ∧ containerPortFromLabel ("abc") = 80) ∧
    (parsePyInt ("8080") = some 8080 ∧ containerPortFromLabel ("8080") = 8080) :=
  ⟨⟨by decide, (C7_theorem ("abc")).1 (Or.inr (Or.inr (by decide)))⟩,
   ⟨by decide, (C7_theorem ("8080")).2 8080 (by decide) (by decide) (by decide)⟩⟩

/-- C8: `validate_time_alive` accepts exactly the integers in
`[0, 15552000]`, returning the value, and rejects anything outside with the
HTTP 400 validation error. -/
theorem C8_theorem (t : Int) :
    (0 ≤ t → t ≤ 15552000 → validate_time_alive t = Except.ok t) ∧
    (t < 0 ∨ 15552000 < t →
       validate_time_alive t =
         Except.error ⟨400, "time_alive must be between 1 and 15552000 seconds"⟩) := by
  have hM : MAX_SECONDS = (15552000 : Int) := rfl
  constructor
  · intro h1 h2
    unfold validate_time_alive
    rw [if_neg]
    rw [hM]
    omega
  · intro h
    unfold validate_time_alive
    rw [if_pos]
    rw [hM]
    omega

/-- C8 (witness): 0 and 15552000 are accepted; -1 and 15552001 are rejected. -/
theorem C8_witness :
    validate_time_alive 0 = Except.ok 0 ∧
    validate_time_alive 15552000 = Except.ok 15552000 ∧
    validate_time_alive (-1) =
      Except.error ⟨400, "time_alive must be between 1 and 15552000 seconds"⟩ ∧
    validate_time_alive 15552001 =
      Except.error ⟨400, "time_alive must be between 1 and 15552000 seconds"⟩ :=
  ⟨(C8_theorem 0).1 (by decide) (by decide),
   (C8_theorem 15552000).1 (by decide) (by decide),
   (C8_theorem (-1)).2 (Or.inl (by decide)),
   (C8_theorem 15552001).2 (Or.inr (by decide))⟩

/-- C9: every failure surfaced by the start, shutdown or delete handler —
including the 400 and 404 errors raised inside the bodies — passes through
the trailing catch-all and carries status code 500. -/
theorem C9_theorem (pub : String) (w : World) (r1 : StartDockerRequest)
    (r2 : ShutdownDockerRequest) (r3 : DeleteDockerRequest) (e1 e2 e3 : HTTPError) :
    ((start_docker pub w r1).response = Except.error e1 → e1.status_code = 500) ∧
    ((shutdown_docker w r2).response = Except.error e2 → e2.status_code = 500) ∧
    ((delete_docker w r3).response = Except.error e3 → e3.status_code = 500) :=
  ⟨fun h => catchAll_error _ e1 h, fun h => catchAll_error _ e2 h,
   fun h => catchAll_error _ e3 h⟩

/-- C9 (witness): a failing start (empty name, originally 400), a failing
shutdown and a failing delete (unknown ids, originally 404) all surface with
status 500 and the original error folded into the detail text. -/
theorem C9_witness :
    (⟨500, "400: Container name cannot be empty"⟩ : HTTPError).status_code = 500 ∧
    (⟨500, "404: Failed to stop container: Error response from daemon: No such container: gone2"⟩ :
        HTTPError).status_code = 500 ∧
    (⟨500, "404: Failed to remove container: Error response from daemon: No such container: gone3"⟩ :
        HTTPError).status_code = 500 := by
  have h := C9_theorem ("1.1.1.1") worldEmpty ⟨"img", 5, "", "compX", "uuidX", none⟩
      ⟨"gone2"⟩ ⟨"gone3"⟩
      ⟨500, "400: Container name cannot be empty"⟩
      ⟨500, "404: Failed to stop container: Error response from daemon: No such container: gone2"⟩
      ⟨500, "404: Failed to remove container: Error response from daemon: No such container: gone3"⟩
  exact ⟨h.1 rfl, h.2.1 rfl, h.2.2 rfl⟩

/-- C10: port allocation is a pure function of the engine-reported port
mappings and records no reservation: two consecutive allocations from the
same world, with no intervening container run, return the identical port. -/
theorem C10_theorem (w : World) (p : Nat)
    (h : find_free_port 50000 60000 (reportedPorts w.engine) = Except.ok p) :
    twoConsecutiveAllocations w = (Except.ok p, Except.ok p) ∧
    (twoConsecutiveAllocations w).1 = (twoConsecutiveAllocations w).2 := by
  unfold twoConsecutiveAllocations
  rw [h]
  exact ⟨rfl, rfl⟩

/-- C10 (witness): on the empty world both consecutive allocations return
port 50000. -/
theorem C10_witness :
    find_free_port 50000 60000 (reportedPorts worldEmpty.engine) = Except.ok 50000 ∧
    twoConsecutiveAllocations worldEmpty = (Except.ok 50000, Except.ok 50000) :=
  ⟨by rfl, (C10_theorem worldEmpty 50000 (by rfl)).1⟩

end Orchester
